import Mathlib

/-!
Verification of the golf-swing coaching backend (FastAPI + SQLAlchemy)
against its natural-language specification.

The Python source is shallowly embedded: database tables become lists of
records, ORM statements (SELECT / UPDATE / INSERT / DELETE) become pure
list transformations, HTTP handlers become functions returning
Except (carrying the HTTP status code on the error side), and the
external-service adapters take their outside-world behaviour as explicit
oracle arguments.  Opaque identifier tokens (UUID columns) are embedded as
Nat, timestamps and dates as opaque Nat, and DECIMAL columns as Rat.
Python dicts with insertion order are embedded as association lists.
-/

set_option maxHeartbeats 1000000

namespace BBC

/-! ## Association-list (Python dict) helpers

app/crud builds string-keyed update dictionaries; we embed a dict whose
values all have type a as a List (String × a) in insertion order, with
lookup returning the value of the first matching key. -/

/-- First-match lookup in an insertion-ordered dict. -/
def dlookup {a : Type} (k : String) : List (String × a) → Option a
  | [] => none
  | (k', v) :: rest => if k' = k then some v else dlookup k rest

theorem dlookup_append {a : Type} (k : String) (l₁ l₂ : List (String × a)) :
    dlookup k (l₁ ++ l₂) = (dlookup k l₁).or (dlookup k l₂) := by
  induction l₁ with
  | nil => simp [dlookup]
  | cons kv rest ih =>
    by_cases h : kv.1 = k <;> simp [dlookup, h, ih]

theorem dlookup_eraseP_of_ne {a : Type} (k k' : String) (h : k' ≠ k)
    (l : List (String × a)) :
    dlookup k (l.eraseP (fun kv => kv.1 == k')) = dlookup k l := by
  induction l with
  | nil => rfl
  | cons kv rest ih =>
    by_cases hk : kv.1 = k'
    · have hne : kv.1 ≠ k := fun hkk => h (hk ▸ hkk)
      simp [List.eraseP_cons, beq_iff_eq, hk, dlookup, hne, h]
    · have hkk' : (k == k') = false := by
        simp [beq_iff_eq]; exact Ne.symm h
      by_cases hkk : kv.1 = k <;>
        simp [List.eraseP_cons, beq_iff_eq, hk, dlookup, hkk, hkk', ih]

theorem dlookup_eraseP_none {a : Type} (k : String) (l : List (String × a))
    (h : dlookup k l = none) :
    dlookup k (l.eraseP (fun kv => kv.1 == k)) = none := by
  induction l with
  | nil => rfl
  | cons kv rest ih =>
    by_cases hk : kv.1 = k
    · simp [dlookup, hk] at h
    · simp [dlookup, hk] at h
      simp [List.eraseP_cons, beq_iff_eq, hk, dlookup, ih h]

/-! ## Data model: Video (app/models.py, class Video)

GUID columns are Nat, timestamps opaque Nat, nullable text columns
Option String. -/

/-- A row of the videos table (app/models.py lines 157-174). -/
structure Video where
  video_id : Nat
  user_id : Nat
  video_url : String
  thumbnail_url : Option String
  club_type : Option String
  swing_form : Option String
  swing_note : Option String
  is_pinned : Bool
  is_reviewed : Bool
  section_group_id : Option Nat
  upload_date : Nat
  deriving Repr, DecidableEq

/-- The videos table: a list of rows in storage order. -/
abbrev VideoDB := List Video

/-! ## app/crud/video_crud.py -/

/-- Embeds _normalize_video_update_payload (video_crud.py lines 13-19): if the
external alias key is present and the internal key absent, the entry is
renamed (Python dict.pop removes the key, assignment appends at the end). -/
def renameKey (d : List (String × String)) (src dst : String) : List (String × String) :=
  match dlookup src d with
  | some v =>
      if (dlookup dst d).isSome then d
      else (d.eraseP (fun kv => kv.1 == src)) ++ [(dst, v)]
  | none => d

def normalize_video_update_payload (d : List (String × String)) : List (String × String) :=
  renameKey (renameKey d "swing_type" "swing_form") "description" "swing_note"

/-- VideoUpdate (app/schemas/video.py lines 27-33) after pydantic
validation: outer Option is unset-tracking (none = field absent from the
request), inner Option is JSON null. -/
structure VideoUpdate where
  club_type : Option (Option String)
  swing_form : Option (Option String)
  swing_note : Option (Option String)
  thumbnail_url : Option (Option String)
  deriving Repr, DecidableEq

/-- One dict entry of model_dump(exclude_unset=True) followed by the
none-dropping comprehension of update_video: a field contributes an entry
exactly when it was set to a non-null value. -/
def dictEntry (k : String) : Option (Option String) → List (String × String)
  | some (some v) => [(k, v)]
  | _ => []

/-- update_data as built in VideoCRUD.update_video (video_crud.py lines
78-80): model_dump(exclude_unset=True) in field declaration order, then
values that are None are filtered out. -/
def videoUpdateData (p : VideoUpdate) : List (String × String) :=
  dictEntry "club_type" p.club_type ++ dictEntry "swing_form" p.swing_form ++
    dictEntry "swing_note" p.swing_note ++ dictEntry "thumbnail_url" p.thumbnail_url

/-- UPDATE videos SET ... applied to one row: each column named in the
dict is set to the value in the dict, the rest keep their value. -/
def applyVideoValues (v : Video) (d : List (String × String)) : Video :=
  { v with
    club_type := (dlookup "club_type" d).or v.club_type
    swing_form := (dlookup "swing_form" d).or v.swing_form
    swing_note := (dlookup "swing_note" d).or v.swing_note
    thumbnail_url := (dlookup "thumbnail_url" d).or v.thumbnail_url }

/-- VideoCRUD.get_video (video_crud.py lines 35-38): SELECT by primary
key, scalar_one_or_none. -/
def get_video (db : VideoDB) (video_id : Nat) : Option Video :=
  db.find? (fun v => v.video_id == video_id)

/-- VideoCRUD.update_video (video_crud.py lines 76-89): build update_data,
normalize aliases, execute the UPDATE when non-empty, then re-fetch. -/
def update_video (db : VideoDB) (video_id : Nat) (p : VideoUpdate) :
    VideoDB × Option Video :=
  let update_data := normalize_video_update_payload (videoUpdateData p)
  let db' :=
    if update_data.isEmpty then db
    else db.map (fun v => if v.video_id == video_id then applyVideoValues v update_data else v)
  (db', get_video db' video_id)

/-- VideoCreate (app/schemas/video.py lines 20-25) after pydantic
validation; pinned/reviewed flags are not fields of the schema. -/
structure VideoCreate where
  user_id : Nat
  video_url : String
  thumbnail_url : Option String
  club_type : Option String
  swing_form : Option String
  swing_note : Option String
  deriving Repr, DecidableEq

/-- A raw video-creation JSON body: the schema fields plus possible extra
keys attempting to set the pinned/reviewed flags (the pydantic default
behaviour ignores keys that are not schema fields). -/
structure RawVideoCreate where
  user_id : Nat
  video_url : String
  thumbnail_url : Option String
  club_type : Option String
  swing_form : Option String
  swing_note : Option String
  attempted_is_pinned : Option Bool
  attempted_is_reviewed : Option Bool
  deriving Repr, DecidableEq

/-- Pydantic validation of VideoCreate: extra keys are dropped. -/
def parseVideoCreate (r : RawVideoCreate) : VideoCreate :=
  { user_id := r.user_id, video_url := r.video_url, thumbnail_url := r.thumbnail_url,
    club_type := r.club_type, swing_form := r.swing_form, swing_note := r.swing_note }

/-- VideoCRUD.create_video (video_crud.py lines 24-32): construct the row
from the payload, then overwrite is_pinned and is_reviewed with False,
insert, commit, refresh and return the persisted row.  new_id and now are
the server-generated primary key and timestamp. -/
def create_video (db : VideoDB) (new_id now : Nat) (p : VideoCreate) : VideoDB × Video :=
  let row : Video :=
    { video_id := new_id, user_id := p.user_id, video_url := p.video_url,
      thumbnail_url := p.thumbnail_url, club_type := p.club_type,
      swing_form := p.swing_form, swing_note := p.swing_note,
      is_pinned := false, is_reviewed := false,
      section_group_id := none, upload_date := now }
  (db ++ [row], row)

/-- VideoCRUD.set_pinned_video (video_crud.py lines 99-109): first UPDATE
clears is_pinned on every video whose user_id matches, second UPDATE sets
is_pinned on every video whose video_id matches (no ownership check). -/
def set_pinned_video (db : VideoDB) (user_id video_id : Nat) : VideoDB :=
  let db1 := db.map (fun v => if v.user_id == user_id then { v with is_pinned := false } else v)
  db1.map (fun v => if v.video_id == video_id then { v with is_pinned := true } else v)

/-! ## Data model: User and Coach (app/models.py)

The rows are embedded at the level of ORM objects: every profile
attribute can hold None on the Python object, so profile columns are
Option-typed here; column nullability is a database-side constraint. -/

/-- A row of the users table (app/models.py lines 64-93). -/
structure User where
  user_id : Nat
  usertype : String
  username : Option String
  email : Option String
  password_hash : String
  gender : Option String
  line_user_id : Option String
  profile_picture_url : Option String
  bio : Option String
  birthday : Option Nat
  golf_score_ave : Option Int
  golf_exp : Option Int
  zip_code : Option String
  state : Option String
  address1 : Option String
  address2 : Option String
  sport_exp : Option String
  industry : Option String
  job_title : Option String
  position : Option String
  deriving Repr, DecidableEq

/-- A row of the coaches table (app/models.py lines 96-131). -/
structure Coach where
  coach_id : Nat
  usertype : String
  coachname : String
  email : Option String
  password_hash : String
  line_user_id : Option String
  profile_picture_url : Option String
  bio : Option String
  birthday : Option Nat
  sex : Option String
  SNS_handle_instagram : Option String
  SNS_handle_X : Option String
  SNS_handle_youtube : Option String
  SNS_handle_facebook : Option String
  SNS_handle_tiktok : Option String
  hourly_rate : Option Int
  location_id : Option Nat
  golf_exp : Option Int
  certification : Option String
  setting_1 : Option String
  setting_2 : Option String
  setting_3 : Option String
  lesson_rank : Option String
  deriving Repr, DecidableEq

/-- The identity tables touched by app/routers/auth.py. -/
structure AuthDB where
  users : List User
  coaches : List Coach
  deriving Repr, DecidableEq

/-- app/core/security.get_password_hash, embedded as an abstract
deterministic stand-in for the external password hasher. -/
def get_password_hash (password : String) : String :=
  "bcrypt$" ++ password

/-- UserRegister (app/schemas/user.py lines 12-17). -/
structure UserRegister where
  username : String
  email : String
  password : String
  gender : Option String
  birthday : Option Nat
  deriving Repr, DecidableEq

/-- CoachCreate payload as consumed by register_coach
(app/routers/auth.py lines 74-97). -/
structure CoachCreate where
  coachname : String
  email : String
  password : String
  usertype : Option String
  birthday : Option Nat
  sex : Option String
  SNS_handle_instagram : Option String
  SNS_handle_X : Option String
  SNS_handle_youtube : Option String
  SNS_handle_facebook : Option String
  SNS_handle_tiktok : Option String
  line_user_id : Option String
  profile_picture_url : Option String
  bio : Option String
  hourly_rate : Option Int
  location_id : Option Nat
  golf_exp : Option Int
  certification : Option String
  setting_1 : Option String
  setting_2 : Option String
  setting_3 : Option String
  lesson_rank : Option String
  deriving Repr, DecidableEq

/-- register_user (app/routers/auth.py lines 30-48): SELECT users by
email; 400 when a row exists (only the User table is consulted);
otherwise INSERT and return the new row.  An error result embeds a raise
before any row was added, so the state is unchanged. -/
def register_user (db : AuthDB) (new_id : Nat) (p : UserRegister) :
    Except Nat (AuthDB × User) :=
  match db.users.find? (fun u => u.email == some p.email) with
  | some _ => .error 400
  | none =>
      let row : User :=
        { user_id := new_id, usertype := "user", username := some p.username,
          email := some p.email, password_hash := get_password_hash p.password,
          gender := p.gender, line_user_id := none, profile_picture_url := none,
          bio := none, birthday := p.birthday, golf_score_ave := none,
          golf_exp := none, zip_code := none, state := none, address1 := none,
          address2 := none, sport_exp := none, industry := none,
          job_title := none, position := none }
      .ok ({ db with users := db.users ++ [row] }, row)

/-- register_coach (app/routers/auth.py lines 67-101): SELECT users by
email and SELECT coaches by email; 400 when either exists; otherwise
INSERT the coach row. -/
def register_coach (db : AuthDB) (new_id : Nat) (p : CoachCreate) :
    Except Nat (AuthDB × Coach) :=
  let u := db.users.find? (fun u => u.email == some p.email)
  let c := db.coaches.find? (fun c => c.email == some p.email)
  if u.isSome || c.isSome then .error 400
  else
    let row : Coach :=
      { coach_id := new_id, usertype := p.usertype.getD "coach",
        coachname := p.coachname, email := some p.email,
        password_hash := get_password_hash p.password,
        line_user_id := p.line_user_id,
        profile_picture_url := p.profile_picture_url, bio := p.bio,
        birthday := p.birthday, sex := p.sex,
        SNS_handle_instagram := p.SNS_handle_instagram,
        SNS_handle_X := p.SNS_handle_X,
        SNS_handle_youtube := p.SNS_handle_youtube,
        SNS_handle_facebook := p.SNS_handle_facebook,
        SNS_handle_tiktok := p.SNS_handle_tiktok,
        hourly_rate := p.hourly_rate, location_id := p.location_id,
        golf_exp := p.golf_exp, certification := p.certification,
        setting_1 := p.setting_1, setting_2 := p.setting_2,
        setting_3 := p.setting_3, lesson_rank := p.lesson_rank }
    .ok ({ db with coaches := db.coaches ++ [row] }, row)

/-- UserProfileUpdate (app/schemas/user.py lines 23-39): outer Option is
unset-tracking, inner Option is JSON null. -/
structure UserProfileUpdate where
  username : Option (Option String)
  email : Option (Option String)
  gender : Option (Option String)
  birthday : Option (Option Nat)
  profile_picture_url : Option (Option String)
  bio : Option (Option String)
  golf_score_ave : Option (Option Int)
  golf_exp : Option (Option Int)
  zip_code : Option (Option String)
  state : Option (Option String)
  address1 : Option (Option String)
  address2 : Option (Option String)
  sport_exp : Option (Option String)
  industry : Option (Option String)
  job_title : Option (Option String)
  position : Option (Option String)
  deriving Repr, DecidableEq

/-- The setattr loop of update_user_profile (app/routers/auth.py lines
56-57): every field present in dict(exclude_unset=True) is assigned,
including fields explicitly sent as null. -/
def applyUserProfile (u : User) (p : UserProfileUpdate) : User :=
  { u with
    username := p.username.getD u.username
    email := p.email.getD u.email
    gender := p.gender.getD u.gender
    birthday := p.birthday.getD u.birthday
    profile_picture_url := p.profile_picture_url.getD u.profile_picture_url
    bio := p.bio.getD u.bio
    golf_score_ave := p.golf_score_ave.getD u.golf_score_ave
    golf_exp := p.golf_exp.getD u.golf_exp
    zip_code := p.zip_code.getD u.zip_code
    state := p.state.getD u.state
    address1 := p.address1.getD u.address1
    address2 := p.address2.getD u.address2
    sport_exp := p.sport_exp.getD u.sport_exp
    industry := p.industry.getD u.industry
    job_title := p.job_title.getD u.job_title
    position := p.position.getD u.position }

/-- update_user_profile (app/routers/auth.py lines 50-62): SELECT the
user, 404 when absent, otherwise setattr every present field, commit,
refresh and return the row. -/
def update_user_profile (db : AuthDB) (user_id : Nat) (p : UserProfileUpdate) :
    Except Nat (AuthDB × User) :=
  match db.users.find? (fun u => u.user_id == user_id) with
  | none => .error 404
  | some u =>
      let u' := applyUserProfile u p
      .ok ({ db with
              users := db.users.map (fun x => if x.user_id == user_id then u' else x) },
           u')

/-! ## Data model: SwingSection (app/models.py lines 240-252)

DECIMAL(6,2) columns are embedded as Rat; the tags JSON column keeps the
fixed section-schema 12-value phase vocabulary. -/

/-- SwingSectionTag (app/schemas/common.py): the fixed phase vocabulary. -/
inductive SwingSectionTag where
  | address | takeaway | halfway_back | backswing | top | transition
  | downswing | impact | follow_through | finish_1 | finish_2 | other
  deriving Repr, DecidableEq

/-- MarkupObject (app/schemas/section.py lines 12-16); float coordinates
are embedded as Rat. -/
structure MarkupObject where
  type : String
  coordinates : List Rat
  color : String
  size : Option Rat
  deriving Repr, DecidableEq

/-- A row of the swing_sections table. -/
structure SwingSection where
  section_id : Nat
  section_group_id : Nat
  start_sec : Rat
  end_sec : Rat
  image_url : Option String
  tags : Option (List SwingSectionTag)
  markup_json : Option (List MarkupObject)
  coach_comment : Option String
  coach_comment_summary : Option String
  deriving Repr, DecidableEq

/-- SwingSectionCreate (app/schemas/section.py lines 86-95): the pydantic
model declares no constraint between start_sec and end_sec, so validation
accepts every pair of decimals. -/
structure SwingSectionCreate where
  section_group_id : Nat
  start_sec : Rat
  end_sec : Rat
  image_url : Option String
  tags : Option (List SwingSectionTag)
  markup_json : Option (List MarkupObject)
  deriving Repr, DecidableEq

/-- SwingSectionCRUD.create_section (app/crud/swing_section_crud.py lines
13-19): construct the row from the payload, INSERT, commit, refresh and
return it — no range check before persistence. -/
def create_section (db : List SwingSection) (new_id : Nat) (p : SwingSectionCreate) :
    List SwingSection × SwingSection :=
  let row : SwingSection :=
    { section_id := new_id, section_group_id := p.section_group_id,
      start_sec := p.start_sec, end_sec := p.end_sec, image_url := p.image_url,
      tags := p.tags, markup_json := p.markup_json,
      coach_comment := none, coach_comment_summary := none }
  (db ++ [row], row)

/-! ## Data model: CoachingReservation (app/models.py lines 203-217) -/

/-- LocationType / ReservationStatus / PaymentStatus
(app/schemas/common.py). -/
inductive LocationType where
  | simulation_golf | real_golf_course
  deriving Repr, DecidableEq

inductive ReservationStatus where
  | booked | completed | cancelled
  deriving Repr, DecidableEq

inductive PaymentStatus where
  | pending | paid
  deriving Repr, DecidableEq

/-- A row of the coaching_reservation table. -/
structure CoachingReservation where
  session_id : Nat
  user_id : Nat
  coach_id : Nat
  session_date : Nat
  session_time : Nat
  location_type : LocationType
  location_id : Nat
  status : ReservationStatus
  price : Rat
  payment_status : PaymentStatus
  deriving Repr, DecidableEq

/-- CoachingReservationUpdate (app/schemas/reservation.py lines 23-30). -/
structure CoachingReservationUpdate where
  session_date : Option (Option Nat)
  session_time : Option (Option Nat)
  location_type : Option (Option LocationType)
  location_id : Option (Option Nat)
  status : Option (Option ReservationStatus)
  price : Option (Option Rat)
  payment_status : Option (Option PaymentStatus)
  deriving Repr, DecidableEq

/-- The heterogeneous values held by the update_data dict of update_reservation
dict. -/
inductive RVal where
  | date (n : Nat)
  | time (n : Nat)
  | loc (l : LocationType)
  | locId (n : Nat)
  | stat (s : ReservationStatus)
  | price (q : Rat)
  | pay (p : PaymentStatus)
  deriving Repr, DecidableEq

/-- One entry of model_dump(exclude_unset=True) followed by the
none-dropping comprehension (reservation_crud.py line 50). -/
def rEntry {a : Type} (k : String) (wrap : a → RVal) :
    Option (Option a) → List (String × RVal)
  | some (some v) => [(k, wrap v)]
  | _ => []

/-- update_data as built in CoachingReservationCRUD.update_reservation. -/
def reservationUpdateData (p : CoachingReservationUpdate) : List (String × RVal) :=
  rEntry "session_date" RVal.date p.session_date ++
    rEntry "session_time" RVal.time p.session_time ++
    rEntry "location_type" RVal.loc p.location_type ++
    rEntry "location_id" RVal.locId p.location_id ++
    rEntry "status" RVal.stat p.status ++
    rEntry "price" RVal.price p.price ++
    rEntry "payment_status" RVal.pay p.payment_status

/-- UPDATE coaching_reservation SET ... applied to one row: each column
named in the dict is set, the rest keep their value. -/
def applyReservationValues (r : CoachingReservation) (d : List (String × RVal)) :
    CoachingReservation :=
  { r with
    session_date := match dlookup "session_date" d with
      | some (.date n) => n | _ => r.session_date
    session_time := match dlookup "session_time" d with
      | some (.time n) => n | _ => r.session_time
    location_type := match dlookup "location_type" d with
      | some (.loc l) => l | _ => r.location_type
    location_id := match dlookup "location_id" d with
      | some (.locId n) => n | _ => r.location_id
    status := match dlookup "status" d with
      | some (.stat s) => s | _ => r.status
    price := match dlookup "price" d with
      | some (.price q) => q | _ => r.price
    payment_status := match dlookup "payment_status" d with
      | some (.pay p) => p | _ => r.payment_status }

/-- CoachingReservationCRUD.get_reservation (reservation_crud.py lines
21-26). -/
def get_reservation (db : List CoachingReservation) (session_id : Nat) :
    Option CoachingReservation :=
  db.find? (fun r => r.session_id == session_id)

/-- CoachingReservationCRUD.update_reservation (reservation_crud.py lines
46-58): build update_data dropping unset and null fields, execute the
UPDATE when non-empty, then re-fetch. -/
def update_reservation (db : List CoachingReservation) (session_id : Nat)
    (p : CoachingReservationUpdate) :
    List CoachingReservation × Option CoachingReservation :=
  let update_data := reservationUpdateData p
  let db' :=
    if update_data.isEmpty then db
    else db.map (fun r =>
      if r.session_id == session_id then applyReservationValues r update_data else r)
  (db', get_reservation db' session_id)

/-! ## app/services/ai.py — AIService

The OpenAI chat-completion call is an oracle argument
api : String → Except String String mapping the source text to either the
stripped summary returned by the model or a raised exception. enabled
embeds self.enabled (False exactly when OPENAI_API_KEY is unset). -/

/-- AIService.summarize_coach_comment (ai.py lines 27-55). -/
def summarize_coach_comment (enabled : Bool) (api : String → Except String String)
    (comment : String) (maxLength : Nat := 200) : String :=
  if !enabled then
    if comment.length > maxLength then comment.take maxLength ++ "..." else comment
  else
    match api comment with
    | .ok summary => if summary = "" then comment.take maxLength else summary
    | .error _ =>
        if comment.length > maxLength then comment.take maxLength ++ "..." else comment

/-- AIService.summarize_overall_feedback (ai.py lines 124-152). -/
def summarize_overall_feedback (enabled : Bool) (api : String → Except String String)
    (feedback : String) (maxLength : Nat := 300) : String :=
  if !enabled then
    if feedback.length > maxLength then feedback.take maxLength ++ "..." else feedback
  else
    match api feedback with
    | .ok summary => if summary = "" then feedback.take maxLength else summary
    | .error _ =>
        if feedback.length > maxLength then feedback.take maxLength ++ "..." else feedback

/-- AIService.summarize_training_menu (ai.py lines 154-182). -/
def summarize_training_menu (enabled : Bool) (api : String → Except String String)
    (trainingMenu : String) (maxLength : Nat := 300) : String :=
  if !enabled then
    if trainingMenu.length > maxLength then trainingMenu.take maxLength ++ "..."
    else trainingMenu
  else
    match api trainingMenu with
    | .ok summary => if summary = "" then trainingMenu.take maxLength else summary
    | .error _ =>
        if trainingMenu.length > maxLength then trainingMenu.take maxLength ++ "..."
        else trainingMenu

/-! ## app/services/transcription.py and app/routers/transcription.py -/

/-- The fixed placeholder returned by
TranscriptionService.transcribe_audio in dummy mode (transcription.py
line 47). -/
def serviceDummyTranscription : String :=
  "こちらはダミーの文字起こし結果です。スイングの改善点について説明しています。アドレスの姿勢を意識して、体重移動をスムーズに行いましょう。"

/-- TranscriptionService.transcribe_audio (transcription.py lines 42-74):
in dummy mode (no API key) the fixed placeholder is returned without
consulting the Whisper oracle; otherwise the oracle text is returned
and a raised OpenAIError is re-raised wrapped in a message. -/
def service_transcribe_audio (useDummy : Bool) (whisper : Except String String) :
    Except String String :=
  if useDummy then .ok serviceDummyTranscription
  else
    match whisper with
    | .ok text => .ok text
    | .error e => .error ("音声の文字起こしに失敗しました: " ++ e)

/-- The Python str.startswith method, embedded over the character list. -/
def strStartsWith (s pre : String) : Bool :=
  pre.data.isPrefixOf s.data

/-- The Python substring test (p in s), via splitOn: a non-empty pattern
occurs in s exactly when splitting on it yields more than one piece. -/
def strContains (s pat : String) : Bool :=
  (s.splitOn pat).length > 1

/-- The suspicious-result filter list of the /transcribe-audio handler
(routers/transcription.py lines 115-120). -/
def suspiciousPhrases : List String :=
  ["ご視聴ありがとうございました", "ありがとうございました",
   "Thanks for watching", "Thank you for watching"]

/-- generate_audio_filename (routers/transcription.py lines 28-37);
the timestamp is an opaque server-supplied Nat. -/
def generate_audio_filename (now : Nat) (ty : String) (phase_code : Option String) :
    String :=
  let timestamp := toString now
  match ty, phase_code with
  | "phase_advice", some pc => timestamp ++ "_" ++ pc ++ "_audio.wav"
  | "advice", _ => timestamp ++ "_advice_audio.wav"
  | "practice", _ => timestamp ++ "_practice_audio.wav"
  | _, _ => timestamp ++ "_general_audio.wav"

/-- Response body of the /transcribe-audio handler. -/
structure TranscribeResponse where
  success : Bool
  transcription : String
  type : String
  audio_url : Option String
  audio_filename : Option String
  audio_duration : Option Nat
  deriving Repr, DecidableEq

/-- Message returned when the uploaded audio is under 1000 bytes
(routers/transcription.py line 84). -/
def tooSmallMessage : String :=
  "音声データが検出されませんでした。録音時間が短すぎるか、マイクの音量が低い可能性があります。"

/-- The fixed placeholder of the /transcribe-audio handler when no API
key is configured (routers/transcription.py line 96). -/
def routeDummyTranscription : String :=
  "OpenAI APIキーが設定されていないため、ダミーの文字起こし結果です。実際の音声を文字起こしするには、環境変数OPENAI_API_KEYを設定してください。"

/-- Replacement text when the Whisper output matches a suspicious phrase
(routers/transcription.py line 123). -/
def suspiciousReplacement : String :=
  "録音された音声が検出されませんでした。マイクの設定を確認して、もう一度録音してください。"

/-- POST /transcribe-audio (routers/transcription.py lines 55-164).
hasApiKey embeds the OPENAI_API_KEY configuration, whisper the Whisper
call outcome, upload the blob-storage save outcome (its failure is
swallowed, leaving audio_url null).  A raised error inside the handler
surfaces as the HTTP status carried by the Except error. -/
def transcribe_audio_route (hasApiKey : Bool) (now : Nat)
    (contentType : Option String) (fileSize : Nat) (ty : String)
    (phase_code : Option String) (whisper : Except String String)
    (upload : Except String String) : Except Nat TranscribeResponse :=
  if !(match contentType with
       | some ct => strStartsWith ct "audio/"
       | none => false) then
    .error 400
  else if fileSize < 1000 then
    .ok { success := false, transcription := tooSmallMessage, type := ty,
          audio_url := none, audio_filename := none, audio_duration := none }
  else if !hasApiKey then
    .ok { success := true, transcription := routeDummyTranscription, type := ty,
          audio_url := none, audio_filename := none, audio_duration := none }
  else
    match whisper with
    | .error _ => .error 500
    | .ok text =>
        let text' :=
          if suspiciousPhrases.any (fun p => strContains text p) then
            suspiciousReplacement
          else text
        let fname := generate_audio_filename now ty phase_code
        let url := match upload with | .ok u => some u | .error _ => none
        .ok { success := true, transcription := text', type := ty,
              audio_url := url, audio_filename := some fname,
              audio_duration := none }

/-! ## app/routers/line.py — LINE webhook

The outside world (database writes of ensure_guest_user, content fetch,
blob upload, reply send) enters as an environment of oracles; an error
value is a raised exception.  A raised exception that escapes the handler
aborts the delivery, so the fixed acknowledgement is not returned. -/

structure LineMessage where
  mtype : Option String
  id : String
  text : String
  deriving Repr, DecidableEq

structure LineEvent where
  etype : Option String
  userId : Option String
  replyToken : Option String
  message : Option LineMessage
  deriving Repr, DecidableEq

structure LineEnv where
  ensureGuest : String → Except String Unit
  getContent : String → Except String String
  uploadImage : String → String → Except String String
  reply : Option String → List String → Except String Unit

/-- The dispatch on message kind (line.py lines 136-189), entered once
the guest user is ensured.  Inside the media branches the try block
covers content fetch, storage and the success reply; any exception there
falls to the reply of the catch handler.  The catch-handler reply itself, the
text replies and the fall-through reply are unguarded, so their
exceptions escape. -/
def handle_message (env : LineEnv) (ev : LineEvent) : Except String Unit :=
  let msg := ev.message.getD { mtype := none, id := "", text := "" }
  if msg.mtype = some "image" then
    match env.getContent msg.id with
    | .error _ => env.reply ev.replyToken ["画像の保存に失敗しました。"]
    | .ok blob =>
      match env.uploadImage blob ("line_img_" ++ msg.id ++ ".jpg") with
      | .error _ => env.reply ev.replyToken ["画像の保存に失敗しました。"]
      | .ok url =>
        match env.reply ev.replyToken ["画像を受け取りました。保存しました。", url] with
        | .error _ => env.reply ev.replyToken ["画像の保存に失敗しました。"]
        | .ok _ => .ok ()
  else if msg.mtype = some "video" then
    match env.getContent msg.id with
    | .error _ => env.reply ev.replyToken ["動画の取得に失敗しました。"]
    | .ok _ =>
      match env.reply ev.replyToken ["動画を受け取りました。（保存は今はスキップ）"] with
      | .error _ => env.reply ev.replyToken ["動画の取得に失敗しました。"]
      | .ok _ => .ok ()
  else if msg.mtype = some "audio" then
    match env.getContent msg.id with
    | .error _ => env.reply ev.replyToken ["音声の取得に失敗しました。"]
    | .ok _ =>
      match env.reply ev.replyToken ["音声を受け取りました。（保存は今はスキップ）"] with
      | .error _ => env.reply ev.replyToken ["音声の取得に失敗しました。"]
      | .ok _ => .ok ()
  else if msg.mtype = some "text" then
    if msg.text.trim.toLower = "help" then
      env.reply ev.replyToken
        ["画像・動画・音声を送ると受け取ります。",
         "アプリ連携は /api/v1/line/login で行えます。"]
    else
      env.reply ev.replyToken ["受け取りました: " ++ msg.text]
  else
    env.reply ev.replyToken ["未対応のメッセージタイプです。"]

/-- The body of the per-event loop of webhook (line.py lines 125-194).
ensure_guest_user runs before any try block, so its exception escapes. -/
def handle_event (env : LineEnv) (ev : LineEvent) : Except String Unit :=
  match (match ev.userId with
         | some uid => env.ensureGuest uid
         | none => .ok ()) with
  | .error e => .error e
  | .ok _ =>
    if ev.etype = some "message" then handle_message env ev
    else
      match ev.replyToken with
      | some tok => env.reply (some tok) ["イベントを受け取りました。"]
      | none => .ok ()

/-- The sequential event loop: the first escaping exception aborts the
delivery. -/
def run_events (env : LineEnv) : List LineEvent → Except String Unit
  | [] => .ok ()
  | ev :: evs =>
    match handle_event env ev with
    | .error e => .error e
    | .ok _ => run_events env evs

/-- The fixed transport-level acknowledgement body (line.py line 196). -/
structure WebhookAck where
  success : Bool
  deriving Repr, DecidableEq

/-- POST /webhook (line.py lines 109-196): signature check, then the
sequential event loop; the fixed acknowledgement is returned only when no
unguarded exception escaped an event. -/
def webhook (env : LineEnv) (signatureOk : Bool) (events : List LineEvent) :
    Except String WebhookAck :=
  if !signatureOk then .error "400 Invalid signature"
  else
    match run_events env events with
    | .error e => .error e
    | .ok _ => .ok { success := true }

/-! ## app/services/storage.py — JSON documents

save_json serializes a dict with json.dumps and stores the bytes at the
given path; get_json reads the bytes back and parses them with
json.loads, returning None on a missing or malformed document.  The JSON
data model is embedded as the inductive J below (numbers as Int), and the
serialized byte stream at the token level: the textual lexing layer of
the standard json codec is not re-verified here.  A stored document is
therefore a token list, produced by the serializer ser and consumed by
the fueled recursive-descent parser parseVal. -/

inductive J where
  | null
  | bool (b : Bool)
  | num (n : Int)
  | str (s : String)
  | arr (elts : List J)
  | obj (fields : List (String × J))
  deriving Inhabited

inductive JTok where
  | lbrace | rbrace | lbrack | rbrack | colon | comma
  | nullTok
  | boolTok (b : Bool)
  | numTok (n : Int)
  | strTok (s : String)
  deriving Repr, DecidableEq, Inhabited

mutual

/-- json.dumps at the token level. -/
def serVal : J → List JTok
  | .null => [.nullTok]
  | .bool b => [.boolTok b]
  | .num n => [.numTok n]
  | .str s => [.strTok s]
  | .arr xs => .lbrack :: serItems xs
  | .obj kvs => .lbrace :: serFields kvs

/-- Comma-separated array items, closed by the bracket. -/
def serItems : List J → List JTok
  | [] => [.rbrack]
  | [v] => serVal v ++ [.rbrack]
  | v :: v' :: vs => serVal v ++ .comma :: serItems (v' :: vs)

/-- Comma-separated object members, closed by the brace. -/
def serFields : List (String × J) → List JTok
  | [] => [.rbrace]
  | [(k, v)] => .strTok k :: .colon :: (serVal v ++ [.rbrace])
  | (k, v) :: kv :: kvs => .strTok k :: .colon :: (serVal v ++ .comma :: serFields (kv :: kvs))

end

mutual

/-- json.loads at the token level: one value, returning the remaining
tokens; the fuel only bounds recursion depth and is irrelevant whenever
it is at least the token count. -/
def parseVal : Nat → List JTok → Option (J × List JTok)
  | 0, _ => none
  | _ + 1, .nullTok :: r => some (.null, r)
  | _ + 1, .boolTok b :: r => some (.bool b, r)
  | _ + 1, .numTok n :: r => some (.num n, r)
  | _ + 1, .strTok s :: r => some (.str s, r)
  | f + 1, .lbrack :: r =>
      match parseItems f r with
      | some (xs, r') => some (.arr xs, r')
      | none => none
  | f + 1, .lbrace :: r =>
      match parseFields f r with
      | some (kvs, r') => some (.obj kvs, r')
      | none => none
  | _ + 1, _ => none

def parseItems : Nat → List JTok → Option (List J × List JTok)
  | 0, _ => none
  | f + 1, toks =>
      if toks.head? = some .rbrack then some ([], toks.tail)
      else
        match parseVal f toks with
        | some (v, .comma :: r2) =>
            match parseItems f r2 with
            | some (vs, r3) => some (v :: vs, r3)
            | none => none
        | some (v, .rbrack :: r2) => some ([v], r2)
        | _ => none

def parseFields : Nat → List JTok → Option (List (String × J) × List JTok)
  | 0, _ => none
  | _ + 1, .rbrace :: r => some ([], r)
  | f + 1, .strTok k :: .colon :: toks =>
      match parseVal f toks with
      | some (v, .comma :: r2) =>
          match parseFields f r2 with
          | some (kvs, r3) => some ((k, v) :: kvs, r3)
          | none => none
      | some (v, .rbrace :: r2) => some ([(k, v)], r2)
      | _ => none
  | _ + 1, _ => none

end

/-- json.loads of a whole document: the single value must consume every
token, matching the strict ValueError behaviour on trailing data. -/
def parseDoc (toks : List JTok) : Option J :=
  match parseVal toks.length toks with
  | some (v, []) => some v
  | _ => none

/-- A blob container or upload directory: path to stored document. -/
abbrev BlobStore := List (String × List JTok)

/-- Writing a document at a path overwrites any previous content
(open(..., "w") locally, upload_blob(overwrite=True) on Azure). -/
def storePut (store : BlobStore) (path : String) (doc : List JTok) : BlobStore :=
  store.filter (fun kv => !(kv.1 == path)) ++ [(path, doc)]

/-- LocalStorage state (storage.py lines 70-153). -/
structure LocalStorageState where
  files : BlobStore
  deriving Repr, DecidableEq

/-- LocalStorage.get_file_url (storage.py lines 112-117). -/
def LocalStorage.get_file_url (filename_or_path : String) : String :=
  if strStartsWith filename_or_path "/" then filename_or_path
  else "/uploads/" ++ filename_or_path

/-- LocalStorage.save_json (storage.py lines 119-125). -/
def LocalStorage.save_json (st : LocalStorageState) (blob_path : String) (data : J) :
    LocalStorageState × String :=
  ({ files := storePut st.files blob_path (serVal data) },
   LocalStorage.get_file_url blob_path)

/-- LocalStorage.get_json (storage.py lines 127-135): None when the file
does not exist, None when reading or parsing fails. -/
def LocalStorage.get_json (st : LocalStorageState) (blob_path : String) : Option J :=
  match dlookup blob_path st.files with
  | none => none
  | some toks => parseDoc toks

/-- AzureBlobStorage state (storage.py lines 159-287); base_url stands
for the account/container URL prefix of a blob client. -/
structure AzureBlobState where
  blobs : BlobStore
  base_url : String
  deriving Repr, DecidableEq

/-- AzureBlobStorage.save_json (storage.py lines 250-263). -/
def AzureBlobStorage.save_json (st : AzureBlobState) (blob_path : String) (data : J) :
    AzureBlobState × String :=
  ({ st with blobs := storePut st.blobs blob_path (serVal data) },
   st.base_url ++ "/" ++ blob_path)

/-- AzureBlobStorage.get_json (storage.py lines 265-273): a failed
download (missing blob) or a failed parse returns None. -/
def AzureBlobStorage.get_json (st : AzureBlobState) (blob_path : String) : Option J :=
  match dlookup blob_path st.blobs with
  | none => none
  | some toks => parseDoc toks

/-- The backend selected at process start by StorageService.__init__
(storage.py lines 296-304). -/
inductive StorageBackend where
  | localB (st : LocalStorageState)
  | azureB (st : AzureBlobState)
  deriving Repr, DecidableEq

/-- StorageService.save_json (storage.py lines 323-328): delegate to the
active backend. -/
def StorageService.save_json (b : StorageBackend) (blob_path : String) (data : J) :
    StorageBackend × String :=
  match b with
  | .localB st =>
      let (st', url) := LocalStorage.save_json st blob_path data
      (.localB st', url)
  | .azureB st =>
      let (st', url) := AzureBlobStorage.save_json st blob_path data
      (.azureB st', url)

/-- StorageService.get_json (storage.py lines 330-331). -/
def StorageService.get_json (b : StorageBackend) (blob_path : String) : Option J :=
  match b with
  | .localB st => LocalStorage.get_json st blob_path
  | .azureB st => AzureBlobStorage.get_json st blob_path

/-! ### Round trip of the JSON codec -/

theorem serVal_length_pos (v : J) : 1 ≤ (serVal v).length := by
  cases v <;> simp [serVal]

theorem serItems_length_pos (xs : List J) : 1 ≤ (serItems xs).length := by
  match xs with
  | [] => simp [serItems]
  | [v] => simp [serItems]
  | v :: v' :: vs => simp [serItems]; omega

theorem serFields_length_pos (kvs : List (String × J)) : 1 ≤ (serFields kvs).length := by
  match kvs with
  | [] => simp [serFields]
  | [(k, v)] => simp [serFields]
  | (k, v) :: kv :: kvs => simp [serFields]

theorem serVal_append_head_ne_rbrack (v : J) (l : List JTok) :
    ¬ (serVal v ++ l).head? = some JTok.rbrack := by
  cases v <;> simp [serVal]

theorem parse_ser (f : Nat) :
    (∀ v rest, (serVal v).length ≤ f → parseVal f (serVal v ++ rest) = some (v, rest)) ∧
    (∀ xs rest, (serItems xs).length ≤ f →
      parseItems f (serItems xs ++ rest) = some (xs, rest)) ∧
    (∀ kvs rest, (serFields kvs).length ≤ f →
      parseFields f (serFields kvs ++ rest) = some (kvs, rest)) := by
  induction f with
  | zero =>
    refine ⟨?_, ?_, ?_⟩
    · intro v rest h; have := serVal_length_pos v; omega
    · intro xs rest h; have := serItems_length_pos xs; omega
    · intro kvs rest h; have := serFields_length_pos kvs; omega
  | succ f ih =>
    obtain ⟨ihV, ihI, ihF⟩ := ih
    refine ⟨?_, ?_, ?_⟩
    · intro v rest hlen
      cases v with
      | null => simp [serVal, parseVal]
      | bool b => simp [serVal, parseVal]
      | num n => simp [serVal, parseVal]
      | str s => simp [serVal, parseVal]
      | arr xs =>
        have h1 : (serItems xs).length ≤ f := by
          simp [serVal] at hlen; omega
        simp [serVal, parseVal, ihI xs rest h1]
      | obj kvs =>
        have h1 : (serFields kvs).length ≤ f := by
          simp [serVal] at hlen; omega
        simp [serVal, parseVal, ihF kvs rest h1]
    · intro xs rest hlen
      match xs with
      | [] => simp [serItems, parseItems]
      | [v] =>
        have hv : (serVal v).length ≤ f := by
          have := serItems_length_pos ([] : List J)
          simp [serItems] at hlen; omega
        have hne := serVal_append_head_ne_rbrack v (JTok.rbrack :: rest)
        simp only [serItems, List.append_assoc, List.singleton_append]
        rw [parseItems, if_neg hne, ihV v (JTok.rbrack :: rest) hv]
      | v :: v' :: vs =>
        have hv : (serVal v).length ≤ f := by
          have := serItems_length_pos (v' :: vs)
          simp [serItems] at hlen; omega
        have hvs : (serItems (v' :: vs)).length ≤ f := by
          have := serVal_length_pos v
          simp [serItems] at hlen; omega
        have hne := serVal_append_head_ne_rbrack v
          (JTok.comma :: (serItems (v' :: vs) ++ rest))
        simp only [serItems, List.append_assoc, List.cons_append]
        rw [parseItems, if_neg hne,
          ihV v (JTok.comma :: (serItems (v' :: vs) ++ rest)) hv]
        simp [ihI (v' :: vs) rest hvs]
    · intro kvs rest hlen
      match kvs with
      | [] => simp [serFields, parseFields]
      | [(k, v)] =>
        have hv : (serVal v).length ≤ f := by
          simp [serFields] at hlen; omega
        simp only [serFields, List.append_assoc, List.cons_append,
          List.singleton_append, List.nil_append]
        rw [parseFields, ihV v (JTok.rbrace :: rest) hv]
      | (k, v) :: kv :: kvs =>
        have hv : (serVal v).length ≤ f := by
          have := serFields_length_pos (kv :: kvs)
          simp [serFields] at hlen; omega
        have hkvs : (serFields (kv :: kvs)).length ≤ f := by
          have := serVal_length_pos v
          simp [serFields] at hlen; omega
        simp only [serFields, List.append_assoc, List.cons_append]
        rw [parseFields, ihV v (JTok.comma :: (serFields (kv :: kvs) ++ rest)) hv]
        simp [ihF (kv :: kvs) rest hkvs]

theorem parseDoc_serVal (v : J) : parseDoc (serVal v) = some v := by
  have h := (parse_ser (serVal v).length).1 v [] (le_refl _)
  rw [List.append_nil] at h
  simp [parseDoc, h]

theorem dlookup_storePut (store : BlobStore) (path : String) (doc : List JTok) :
    dlookup path (storePut store path doc) = some doc := by
  rw [storePut, dlookup_append]
  have hfilter : dlookup path (store.filter (fun kv => !(kv.1 == path))) = none := by
    induction store with
    | nil => rfl
    | cons kv rest ih =>
      by_cases h : kv.1 = path
      · simp [List.filter_cons, h, ih]
      · simp [List.filter_cons, h, dlookup, ih]
  simp [hfilter, dlookup]

/-! ## Claim theorems -/

/-- Claim C6: for every JSON-serializable dictionary (any object of the
JSON data model, including nested markup-object lists) and every path, on
either storage backend, saving the document through the storage facade's
save_json and reading it back via get_json at the same path yields a
value deeply equal to the original. -/
theorem storage_save_json_get_json_roundtrip (b : StorageBackend) (path : String)
    (fields : List (String × J)) :
    StorageService.get_json (StorageService.save_json b path (J.obj fields)).1 path =
      some (J.obj fields) := by
  cases b with
  | localB st =>
      simp [StorageService.save_json, StorageService.get_json,
        LocalStorage.save_json, LocalStorage.get_json, dlookup_storePut,
        parseDoc_serVal]
  | azureB st =>
      simp [StorageService.save_json, StorageService.get_json,
        AzureBlobStorage.save_json, AzureBlobStorage.get_json, dlookup_storePut,
        parseDoc_serVal]

/-- Claim C10: for every video-creation input payload — even one whose raw
body attempts to supply values for the pinned/reviewed flags — the video
persisted and returned by create_video has is_pinned = false and
is_reviewed = false, and the persisted row is the returned row. -/
theorem create_video_flags_forced_false (db : VideoDB) (new_id now : Nat)
    (r : RawVideoCreate) :
    (create_video db new_id now (parseVideoCreate r)).2.is_pinned = false ∧
    (create_video db new_id now (parseVideoCreate r)).2.is_reviewed = false ∧
    (create_video db new_id now (parseVideoCreate r)).1 =
      db ++ [(create_video db new_id now (parseVideoCreate r)).2] := by
  refine ⟨rfl, rfl, rfl⟩

/-- Claim C4 (code evaluated at the failing input): a SwingSection
creation request with start_sec greater than end_sec is accepted by the
schema and persisted unchanged by create_section, so the stored table
then contains a section violating start_sec <= end_sec — the rejection
the claim requires does not exist in the code. -/
theorem create_section_accepts_inverted_range :
    ∃ s ∈ (create_section []
      7 { section_group_id := 3, start_sec := 5, end_sec := 3,
          image_url := none, tags := none, markup_json := none }).1,
      s.end_sec < s.start_sec := by
  refine ⟨_, List.mem_singleton.mpr rfl, ?_⟩
  norm_num [create_section]

/-- The composite per-row effect of the two UPDATE statements of
set_pinned_video. -/
def pinStep (u vid : Nat) (v : Video) : Video :=
  let v1 := if v.user_id == u then { v with is_pinned := false } else v
  if v1.video_id == vid then { v1 with is_pinned := true } else v1

theorem set_pinned_video_eq_map (db : VideoDB) (u vid : Nat) :
    set_pinned_video db u vid = db.map (pinStep u vid) := by
  simp only [set_pinned_video, List.map_map]
  rfl

theorem pinStep_video_id (u vid : Nat) (v : Video) :
    (pinStep u vid v).video_id = v.video_id := by
  simp only [pinStep]
  split <;> split <;> rfl

theorem pinStep_dropped (u vid : Nat) (v : Video) (h : v.video_id ≠ vid) :
    ((pinStep u vid v).user_id == u && (pinStep u vid v).is_pinned) = false := by
  by_cases hu : v.user_id = u
  · simp [pinStep, hu, h]
  · simp [pinStep, hu, h]

theorem pinStep_target (u vid : Nat) (v : Video) (h : v.video_id = vid)
    (hu : v.user_id = u) :
    ((pinStep u vid v).user_id == u && (pinStep u vid v).is_pinned) = true := by
  simp [pinStep, beq_iff_eq, h, hu]

theorem set_pinned_video_filter_nil (rest : VideoDB) (u vid : Nat)
    (h : ∀ x ∈ rest, x.video_id ≠ vid) :
    (set_pinned_video rest u vid).filter
      (fun x => x.user_id == u && x.is_pinned) = [] := by
  rw [set_pinned_video_eq_map]
  induction rest with
  | nil => rfl
  | cons v vs ih =>
    have hv : v.video_id ≠ vid := h v (by simp)
    simp only [List.map_cons, List.filter_cons, pinStep_dropped u vid v hv]
    exact ih (fun x hx => h x (by simp [hx]))

/-- Claim C1 (amended): for every user u and every video V that exists in
the table and is owned by u — ownership is what the counterexample forces
us to add, since set_pinned_video never checks it — and with video ids
unique as the primary key guarantees, after set_pinned_video exactly one
video owned by u has is_pinned = true, and it is V. -/
theorem set_pinned_video_owned_unique (db : VideoDB) (u vid : Nat)
    (hmem : ∃ v ∈ db, v.video_id = vid ∧ v.user_id = u)
    (hnodup : (db.map (fun v => v.video_id)).Nodup) :
    ((set_pinned_video db u vid).filter
        (fun x => x.user_id == u && x.is_pinned)).map (fun x => x.video_id) =
      [vid] := by
  induction db with
  | nil => obtain ⟨v, hv, _⟩ := hmem; exact absurd hv (List.not_mem_nil v)
  | cons v rest ih =>
    have hnodup' : (rest.map (fun v => v.video_id)).Nodup := by
      simpa using hnodup.of_cons
    by_cases hvid : v.video_id = vid
    · -- the head row is the target; uniqueness forces the witness to be it
      have hnot : ∀ x ∈ rest, x.video_id ≠ vid := by
        intro x hx hxv
        have : v.video_id ∈ rest.map (fun v => v.video_id) := by
          rw [hvid, ← hxv]; exact List.mem_map_of_mem _ hx
        simp only [List.map_cons, List.nodup_cons] at hnodup
        exact hnodup.1 this
      have hu : v.user_id = u := by
        obtain ⟨w, hw, hwv, hwu⟩ := hmem
        rcases List.mem_cons.mp hw with rfl | hw'
        · exact hwu
        · exact absurd hwv (hnot w hw')
      rw [set_pinned_video_eq_map, List.map_cons, List.filter_cons,
        pinStep_target u vid v hvid hu, ← set_pinned_video_eq_map,
        set_pinned_video_filter_nil rest u vid hnot]
      simp [pinStep_video_id, hvid]
    · -- the head row is not the target and never survives the filter
      have hmem' : ∃ w ∈ rest, w.video_id = vid ∧ w.user_id = u := by
        obtain ⟨w, hw, hwv, hwu⟩ := hmem
        rcases List.mem_cons.mp hw with rfl | hw'
        · exact absurd hwv hvid
        · exact ⟨w, hw', hwv, hwu⟩
      rw [set_pinned_video_eq_map, List.map_cons, List.filter_cons,
        pinStep_dropped u vid v hvid, ← set_pinned_video_eq_map]
      exact ih hmem' hnodup'

/-- Witness database for the pin-uniqueness theorem: user 1 already has
video 10 pinned and pins video 11. -/
def pinWitnessDB : VideoDB :=
  [{ video_id := 10, user_id := 1, video_url := "a.mp4", thumbnail_url := none,
     club_type := none, swing_form := none, swing_note := none,
     is_pinned := true, is_reviewed := false, section_group_id := none,
     upload_date := 0 },
   { video_id := 11, user_id := 1, video_url := "b.mp4", thumbnail_url := none,
     club_type := none, swing_form := none, swing_note := none,
     is_pinned := false, is_reviewed := false, section_group_id := none,
     upload_date := 0 }]

theorem set_pinned_video_owned_unique_witness :
    (∃ v ∈ pinWitnessDB, v.video_id = 11 ∧ v.user_id = 1) ∧
    (pinWitnessDB.map (fun v => v.video_id)).Nodup ∧
    ((set_pinned_video pinWitnessDB 1 11).filter
        (fun x => x.user_id == 1 && x.is_pinned)).map (fun x => x.video_id) =
      [11] :=
  ⟨by decide, by decide,
    set_pinned_video_owned_unique pinWitnessDB 1 11 (by decide) (by decide)⟩

/-- Claim C1 (counterexample): set_pinned_video pins the target row
without checking ownership, so pinning a video owned by someone else
leaves the calling user with zero pinned videos — not exactly one. -/
theorem set_pinned_video_counterexample :
    ¬ (((set_pinned_video
          [{ video_id := 10, user_id := 2, video_url := "a.mp4",
             thumbnail_url := none, club_type := none, swing_form := none,
             swing_note := none, is_pinned := false, is_reviewed := false,
             section_group_id := none, upload_date := 0 }] 1 10).filter
          (fun x => x.user_id == 1 && x.is_pinned)).map (fun x => x.video_id) =
        [10]) := by
  decide

/-! ### Claim C2 — registration email conflicts -/

/-- Identity tables for the registration counterexample: one Coach holds
the email, no User does. -/
def regConflictDB : AuthDB :=
  { users := [],
    coaches :=
      [{ coach_id := 5, usertype := "coach", coachname := "c",
         email := some "a@x.com", password_hash := "bcrypt$pw",
         line_user_id := none, profile_picture_url := none, bio := none,
         birthday := none, sex := none, SNS_handle_instagram := none,
         SNS_handle_X := none, SNS_handle_youtube := none,
         SNS_handle_facebook := none, SNS_handle_tiktok := none,
         hourly_rate := none, location_id := none, golf_exp := none,
         certification := none, setting_1 := none, setting_2 := none,
         setting_3 := none, lesson_rank := none }] }

def regConflictPayload : UserRegister :=
  { username := "bob", email := "a@x.com", password := "pw", gender := none,
    birthday := none }

/-- Claim C2 (counterexample): with an existing Coach holding the email
and no User, register_user succeeds and creates the User row — it
consults only the User table, so the cross-table rejection the claim
states does not happen. -/
theorem register_user_coach_email_counterexample :
    (∃ c ∈ regConflictDB.coaches, c.email = some "a@x.com") ∧
    (register_user regConflictDB 1 regConflictPayload).isOk = true ∧
    (register_user regConflictDB 1 regConflictPayload).toOption.map
        (fun r => r.1.users.length) = some 1 := by
  refine ⟨by decide, ?_, ?_⟩ <;> rfl

/-- Claim C2 (amended): registering a User is rejected with 400 and no
row is created when a User already holds the email, and registering a
Coach is rejected with 400 and no row is created when a User or a Coach
already holds the email; only Coach registration consults both identity
tables, while User registration consults only the User table (the
counterexample shows an email held only by a Coach does not block User
registration). -/
theorem register_email_conflict_checks (db : AuthDB) (nid : Nat)
    (pu : UserRegister) (pc : CoachCreate)
    (hu : ∃ u ∈ db.users, u.email = some pu.email)
    (hc : (∃ u ∈ db.users, u.email = some pc.email) ∨
          (∃ c ∈ db.coaches, c.email = some pc.email)) :
    register_user db nid pu = .error 400 ∧
    register_coach db nid pc = .error 400 := by
  constructor
  · have hfind : (db.users.find? (fun u => u.email == some pu.email)).isSome := by
      rw [List.find?_isSome]
      obtain ⟨u, hu1, hu2⟩ := hu
      exact ⟨u, hu1, by simp [hu2]⟩
    obtain ⟨u0, hu0⟩ := Option.isSome_iff_exists.mp hfind
    simp [register_user, hu0]
  · rcases hc with h | h
    · have hfind : (db.users.find? (fun u => u.email == some pc.email)).isSome := by
        rw [List.find?_isSome]
        obtain ⟨u, hu1, hu2⟩ := h
        exact ⟨u, hu1, by simp [hu2]⟩
      simp [register_coach, hfind]
    · have hfind : (db.coaches.find? (fun c => c.email == some pc.email)).isSome := by
        rw [List.find?_isSome]
        obtain ⟨c, hc1, hc2⟩ := h
        exact ⟨c, hc1, by simp [hc2]⟩
      simp [register_coach, hfind]

/-- Identity tables for the conflict witness: a User holds "a@x.com" and
a Coach holds "c@z.com". -/
def regWitnessDB : AuthDB :=
  { users :=
      [{ user_id := 9, usertype := "user", username := some "ann",
         email := some "a@x.com", password_hash := "bcrypt$p", gender := none,
         line_user_id := none, profile_picture_url := none, bio := none,
         birthday := none, golf_score_ave := none, golf_exp := none,
         zip_code := none, state := none, address1 := none, address2 := none,
         sport_exp := none, industry := none, job_title := none,
         position := none }],
    coaches :=
      [{ coach_id := 5, usertype := "coach", coachname := "c",
         email := some "c@z.com", password_hash := "bcrypt$q",
         line_user_id := none, profile_picture_url := none, bio := none,
         birthday := none, sex := none, SNS_handle_instagram := none,
         SNS_handle_X := none, SNS_handle_youtube := none,
         SNS_handle_facebook := none, SNS_handle_tiktok := none,
         hourly_rate := none, location_id := none, golf_exp := none,
         certification := none, setting_1 := none, setting_2 := none,
         setting_3 := none, lesson_rank := none }] }

def regWitnessUserPayload : UserRegister :=
  { username := "bob", email := "a@x.com", password := "pw", gender := none,
    birthday := none }

def regWitnessCoachPayload : CoachCreate :=
  { coachname := "dan", email := "c@z.com", password := "pw",
    usertype := none, birthday := none, sex := none,
    SNS_handle_instagram := none, SNS_handle_X := none,
    SNS_handle_youtube := none, SNS_handle_facebook := none,
    SNS_handle_tiktok := none, line_user_id := none,
    profile_picture_url := none, bio := none, hourly_rate := none,
    location_id := none, golf_exp := none, certification := none,
    setting_1 := none, setting_2 := none, setting_3 := none,
    lesson_rank := none }

theorem register_email_conflict_checks_witness :
    (∃ u ∈ regWitnessDB.users, u.email = some regWitnessUserPayload.email) ∧
    ((∃ u ∈ regWitnessDB.users, u.email = some regWitnessCoachPayload.email) ∨
      (∃ c ∈ regWitnessDB.coaches, c.email = some regWitnessCoachPayload.email)) ∧
    (register_user regWitnessDB 1 regWitnessUserPayload = .error 400 ∧
      register_coach regWitnessDB 1 regWitnessCoachPayload = .error 400) :=
  ⟨by decide, by decide,
    register_email_conflict_checks regWitnessDB 1 regWitnessUserPayload
      regWitnessCoachPayload (by decide) (by decide)⟩

/-! ### Claim C3 — alias normalization of video updates -/

/-- One entry of a raw JSON request body (value null allowed). -/
def rawEntry (k : String) : Option (Option String) → List (String × Option String)
  | some v => [(k, v)]
  | none => []

/-- A video-update JSON body carrying the four updatable attributes,
written with the external alias pair (useAlias = true: swing_type and
description) or with the internal names (swing_form and swing_note). -/
def rawVideoUpdate (useAlias : Bool) (ct sf sn tu : Option (Option String)) :
    List (String × Option String) :=
  rawEntry "club_type" ct ++
    rawEntry (if useAlias then "swing_type" else "swing_form") sf ++
    rawEntry (if useAlias then "description" else "swing_note") sn ++
    rawEntry "thumbnail_url" tu

/-- Pydantic validation of VideoUpdate (populate_by_name = True): each
aliased field is populated from its alias key when present, otherwise
from its field name; a field is set exactly when one of its keys
appears. -/
def parseVideoUpdate (raw : List (String × Option String)) : VideoUpdate :=
  { club_type := dlookup "club_type" raw,
    swing_form := (dlookup "swing_type" raw).or (dlookup "swing_form" raw),
    swing_note := (dlookup "description" raw).or (dlookup "swing_note" raw),
    thumbnail_url := dlookup "thumbnail_url" raw }

theorem dlookup_renameKey_other {k src dst : String} (h1 : k ≠ src) (h2 : k ≠ dst)
    (d : List (String × String)) :
    dlookup k (renameKey d src dst) = dlookup k d := by
  unfold renameKey
  cases hsrc : dlookup src d with
  | none => rfl
  | some v =>
    by_cases hdst : (dlookup dst d).isSome
    · simp [hdst]
    · simp only [hdst, Bool.false_eq_true, if_false, dlookup_append]
      rw [dlookup_eraseP_of_ne k src (Ne.symm h1)]
      have : dlookup k [(dst, v)] = none := by simp [dlookup, h2.symm]
      simp [this]

theorem renameKey_post {src dst v : String} {d : List (String × String)}
    (h : dlookup src (renameKey d src dst) = some v) :
    (dlookup dst (renameKey d src dst)).isSome := by
  cases hsrc : dlookup src d with
  | none =>
    simp only [renameKey, hsrc] at h
    exact absurd h (by simp)
  | some v0 =>
    simp only [renameKey, hsrc] at h ⊢
    by_cases hdst : (dlookup dst d).isSome
    · simp [hdst]
    · simp only [hdst, Bool.false_eq_true, if_false, dlookup_append]
      have : dlookup dst [(dst, v0)] = some v0 := by simp [dlookup]
      cases herase : dlookup dst (d.eraseP (fun kv => kv.1 == src)) <;>
        simp [this, Option.or]

theorem renameKey_stable (src dst : String) (d : List (String × String)) :
    renameKey (renameKey d src dst) src dst = renameKey d src dst := by
  cases h : dlookup src (renameKey d src dst) with
  | none => conv_lhs => rw [renameKey, h]
  | some v =>
    have hpost := renameKey_post h
    conv_lhs => rw [renameKey, h]
    simp [hpost]

theorem normalize_video_update_payload_idem (d : List (String × String)) :
    normalize_video_update_payload (normalize_video_update_payload d) =
      normalize_video_update_payload d := by
  unfold normalize_video_update_payload
  set A := renameKey d "swing_type" "swing_form" with hA
  set B := renameKey A "description" "swing_note" with hB
  have hstep1 : renameKey B "swing_type" "swing_form" = B := by
    have hst : dlookup "swing_type" B = dlookup "swing_type" A := by
      rw [hB]; exact dlookup_renameKey_other (by decide) (by decide) A
    cases h : dlookup "swing_type" A with
    | none => rw [renameKey, hst, h]
    | some v =>
      have hpost : (dlookup "swing_form" A).isSome := renameKey_post (hA ▸ h)
      have hsf : dlookup "swing_form" B = dlookup "swing_form" A := by
        rw [hB]; exact dlookup_renameKey_other (by decide) (by decide) A
      rw [renameKey, hst, h]
      simp [hsf, hpost]
  rw [hstep1, hB, renameKey_stable]

/-- Claim C3: for every video-update payload, whether it uses the
external alias names (swing_type, description) or the internal names
(swing_form, swing_note), validation produces the same update object, the
persisted record (and the re-fetched result) is identical, and the alias
normalization applied before persistence is idempotent. -/
theorem video_update_alias_agnostic (ct sf sn tu : Option (Option String))
    (db : VideoDB) (vid : Nat) :
    parseVideoUpdate (rawVideoUpdate true ct sf sn tu) =
      parseVideoUpdate (rawVideoUpdate false ct sf sn tu) ∧
    update_video db vid (parseVideoUpdate (rawVideoUpdate true ct sf sn tu)) =
      update_video db vid (parseVideoUpdate (rawVideoUpdate false ct sf sn tu)) ∧
    ∀ d : List (String × String),
      normalize_video_update_payload (normalize_video_update_payload d) =
        normalize_video_update_payload d := by
  have hparse : parseVideoUpdate (rawVideoUpdate true ct sf sn tu) =
      parseVideoUpdate (rawVideoUpdate false ct sf sn tu) := by
    cases ct <;> cases sf <;> cases sn <;> cases tu <;> rfl
  exact ⟨hparse, by rw [hparse], normalize_video_update_payload_idem⟩

/-! ### Claim C5 — partial updates and the null-filtering policy -/

/-- The update policy of the claim for a nullable column: a field is applied
only when explicitly present with a non-null value, otherwise the
previous value is retained. -/
def appliedField {α : Type} : Option (Option α) → Option α → Option α
  | some (some x), _ => some x
  | _, old => old

/-- The update policy of the claim for a non-nullable column. -/
def appliedValue {α : Type} : Option (Option α) → α → α
  | some (some x), _ => x
  | _, old => old

theorem dlookup_dictEntry_ne (k k' : String) (h : k' ≠ k)
    (f : Option (Option String)) : dlookup k (dictEntry k' f) = none := by
  match f with
  | some (some v) => simp [dictEntry, dlookup, h]
  | some none => rfl
  | none => rfl

/-- The value a set, non-null field contributes to the update dict. -/
def presentValue {α : Type} : Option (Option α) → Option α
  | some (some x) => some x
  | _ => none

theorem dlookup_dictEntry_self (k : String) (f : Option (Option String)) :
    dlookup k (dictEntry k f) = presentValue f := by
  match f with
  | some (some v) => simp [dictEntry, dlookup, presentValue]
  | some none => rfl
  | none => rfl

theorem or_presentValue {α : Type} (f : Option (Option α)) (old : Option α) :
    (presentValue f).or old = appliedField f old := by
  match f with
  | some (some x) => rfl
  | some none => rfl
  | none => rfl

theorem renameKey_of_src_none {src : String} {d : List (String × String)}
    (h : dlookup src d = none) (dst : String) : renameKey d src dst = d := by
  simp [renameKey, h]

theorem videoUpdateData_no_alias_keys (p : VideoUpdate) :
    dlookup "swing_type" (videoUpdateData p) = none ∧
    dlookup "description" (videoUpdateData p) = none := by
  constructor <;>
    simp [videoUpdateData, dlookup_append, dlookup_dictEntry_ne, Option.or]

theorem normalize_videoUpdateData (p : VideoUpdate) :
    normalize_video_update_payload (videoUpdateData p) = videoUpdateData p := by
  obtain ⟨h1, h2⟩ := videoUpdateData_no_alias_keys p
  rw [normalize_video_update_payload, renameKey_of_src_none h1,
    renameKey_of_src_none h2]

theorem find?_map_comm {α : Type} (l : List α) (f : α → α) (p : α → Bool)
    (h : ∀ x, p (f x) = p x) : (l.map f).find? p = (l.find? p).map f := by
  induction l with
  | nil => rfl
  | cons x xs ih =>
    cases hp : p x with
    | true => simp [List.find?_cons, h, hp]
    | false => simp [List.find?_cons, h, hp, ih]

theorem dlookup_videoUpdateData_club (p : VideoUpdate) :
    dlookup "club_type" (videoUpdateData p) = presentValue p.club_type := by
  rw [videoUpdateData, dlookup_append, dlookup_append, dlookup_append,
    dlookup_dictEntry_self,
    dlookup_dictEntry_ne "club_type" "swing_form" (by decide),
    dlookup_dictEntry_ne "club_type" "swing_note" (by decide),
    dlookup_dictEntry_ne "club_type" "thumbnail_url" (by decide)]
  cases hp : presentValue p.club_type <;> rfl

theorem dlookup_videoUpdateData_form (p : VideoUpdate) :
    dlookup "swing_form" (videoUpdateData p) = presentValue p.swing_form := by
  rw [videoUpdateData, dlookup_append, dlookup_append, dlookup_append,
    dlookup_dictEntry_self,
    dlookup_dictEntry_ne "swing_form" "club_type" (by decide),
    dlookup_dictEntry_ne "swing_form" "swing_note" (by decide),
    dlookup_dictEntry_ne "swing_form" "thumbnail_url" (by decide)]
  cases hp : presentValue p.swing_form <;> rfl

theorem dlookup_videoUpdateData_note (p : VideoUpdate) :
    dlookup "swing_note" (videoUpdateData p) = presentValue p.swing_note := by
  rw [videoUpdateData, dlookup_append, dlookup_append, dlookup_append,
    dlookup_dictEntry_self,
    dlookup_dictEntry_ne "swing_note" "club_type" (by decide),
    dlookup_dictEntry_ne "swing_note" "swing_form" (by decide),
    dlookup_dictEntry_ne "swing_note" "thumbnail_url" (by decide)]
  cases hp : presentValue p.swing_note <;> rfl

theorem dlookup_videoUpdateData_thumb (p : VideoUpdate) :
    dlookup "thumbnail_url" (videoUpdateData p) = presentValue p.thumbnail_url := by
  rw [videoUpdateData, dlookup_append, dlookup_append, dlookup_append,
    dlookup_dictEntry_self,
    dlookup_dictEntry_ne "thumbnail_url" "club_type" (by decide),
    dlookup_dictEntry_ne "thumbnail_url" "swing_form" (by decide),
    dlookup_dictEntry_ne "thumbnail_url" "swing_note" (by decide)]
  cases hp : presentValue p.thumbnail_url <;> rfl

theorem applyVideoValues_updateData (v : Video) (p : VideoUpdate) :
    applyVideoValues v (videoUpdateData p) =
      { v with
        club_type := appliedField p.club_type v.club_type
        swing_form := appliedField p.swing_form v.swing_form
        swing_note := appliedField p.swing_note v.swing_note
        thumbnail_url := appliedField p.thumbnail_url v.thumbnail_url } := by
  rw [applyVideoValues, dlookup_videoUpdateData_club, dlookup_videoUpdateData_form,
    dlookup_videoUpdateData_note, dlookup_videoUpdateData_thumb,
    or_presentValue, or_presentValue, or_presentValue, or_presentValue]

theorem appliedField_eq_old {α : Type} {f : Option (Option α)}
    (h : presentValue f = none) (old : Option α) : appliedField f old = old := by
  match f with
  | some (some x) => simp [presentValue] at h
  | some none => rfl
  | none => rfl

theorem presentValue_none_of_dictEntry_nil {k : String} {f : Option (Option String)}
    (h : dictEntry k f = []) : presentValue f = none := by
  match f with
  | some (some x) => simp [dictEntry] at h
  | some none => rfl
  | none => rfl

theorem applyVideoValues_video_id (v : Video) (d : List (String × String)) :
    (applyVideoValues v d).video_id = v.video_id := rfl

theorem update_video_refetch (db : VideoDB) (vid : Nat) (p : VideoUpdate)
    (v : Video) (hv : get_video db vid = some v) :
    (update_video db vid p).2 = some
      { v with
        club_type := appliedField p.club_type v.club_type
        swing_form := appliedField p.swing_form v.swing_form
        swing_note := appliedField p.swing_note v.swing_note
        thumbnail_url := appliedField p.thumbnail_url v.thumbnail_url } := by
  simp only [update_video, normalize_videoUpdateData]
  by_cases he : (videoUpdateData p).isEmpty
  · have hnil : videoUpdateData p = [] := by simpa [List.isEmpty_iff] using he
    obtain ⟨h1, h2, h3, h4⟩ : dictEntry "club_type" p.club_type = [] ∧
        dictEntry "swing_form" p.swing_form = [] ∧
        dictEntry "swing_note" p.swing_note = [] ∧
        dictEntry "thumbnail_url" p.thumbnail_url = [] := by
      rw [videoUpdateData] at hnil
      simpa [List.append_eq_nil] using hnil
    rw [appliedField_eq_old (presentValue_none_of_dictEntry_nil h1),
      appliedField_eq_old (presentValue_none_of_dictEntry_nil h2),
      appliedField_eq_old (presentValue_none_of_dictEntry_nil h3),
      appliedField_eq_old (presentValue_none_of_dictEntry_nil h4)]
    simpa [he] using hv
  · have hpred : ∀ x : Video,
        ((if x.video_id == vid then applyVideoValues x (videoUpdateData p) else x).video_id
          == vid) = (x.video_id == vid) := by
      intro x
      by_cases hx : x.video_id == vid <;> simp [hx, applyVideoValues_video_id]
    rw [get_video] at hv
    have hvtrue : (v.video_id == vid) = true := by
      have := List.find?_some hv
      simpa using this
    simp only [he, if_false, Bool.false_eq_true, get_video]
    rw [find?_map_comm db
      (fun x => if x.video_id == vid then applyVideoValues x (videoUpdateData p) else x)
      (fun x => x.video_id == vid) hpred, hv]
    simp [hvtrue, applyVideoValues_updateData]
    intro h
    exact absurd (by simpa using hvtrue) h

/-- presentValue wrapped into the heterogeneous dict value. -/
def rPresent {a : Type} (wrap : a → RVal) : Option (Option a) → Option RVal
  | some (some x) => some (wrap x)
  | _ => none

theorem dlookup_rEntry_ne {a : Type} (k k' : String) (h : k' ≠ k)
    (wrap : a → RVal) (f : Option (Option a)) :
    dlookup k (rEntry k' wrap f) = none := by
  match f with
  | some (some v) => simp [rEntry, dlookup, h]
  | some none => rfl
  | none => rfl

theorem dlookup_rEntry_self {a : Type} (k : String) (wrap : a → RVal)
    (f : Option (Option a)) :
    dlookup k (rEntry k wrap f) = rPresent wrap f := by
  match f with
  | some (some v) => simp [rEntry, dlookup, rPresent]
  | some none => rfl
  | none => rfl

theorem appliedValue_eq_old {a : Type} {wrap : a → RVal} {f : Option (Option a)}
    (h : rPresent wrap f = none) (old : a) : appliedValue f old = old := by
  match f with
  | some (some x) => simp [rPresent] at h
  | some none => rfl
  | none => rfl

theorem rPresent_none_of_rEntry_nil {a : Type} {k : String} {wrap : a → RVal}
    {f : Option (Option a)} (h : rEntry k wrap f = []) : rPresent wrap f = none := by
  match f with
  | some (some x) => simp [rEntry] at h
  | some none => rfl
  | none => rfl

theorem dlookup_resData_date (p : CoachingReservationUpdate) :
    dlookup "session_date" (reservationUpdateData p) =
      rPresent RVal.date p.session_date := by
  rw [reservationUpdateData, dlookup_append, dlookup_append, dlookup_append,
    dlookup_append, dlookup_append, dlookup_append,
    dlookup_rEntry_self,
    dlookup_rEntry_ne "session_date" "session_time" (by decide),
    dlookup_rEntry_ne "session_date" "location_type" (by decide),
    dlookup_rEntry_ne "session_date" "location_id" (by decide),
    dlookup_rEntry_ne "session_date" "status" (by decide),
    dlookup_rEntry_ne "session_date" "price" (by decide),
    dlookup_rEntry_ne "session_date" "payment_status" (by decide)]
  cases hp : rPresent RVal.date p.session_date <;> rfl

theorem dlookup_resData_time (p : CoachingReservationUpdate) :
    dlookup "session_time" (reservationUpdateData p) =
      rPresent RVal.time p.session_time := by
  rw [reservationUpdateData, dlookup_append, dlookup_append, dlookup_append,
    dlookup_append, dlookup_append, dlookup_append,
    dlookup_rEntry_self,
    dlookup_rEntry_ne "session_time" "session_date" (by decide),
    dlookup_rEntry_ne "session_time" "location_type" (by decide),
    dlookup_rEntry_ne "session_time" "location_id" (by decide),
    dlookup_rEntry_ne "session_time" "status" (by decide),
    dlookup_rEntry_ne "session_time" "price" (by decide),
    dlookup_rEntry_ne "session_time" "payment_status" (by decide)]
  cases hp : rPresent RVal.time p.session_time <;> rfl

theorem dlookup_resData_loc (p : CoachingReservationUpdate) :
    dlookup "location_type" (reservationUpdateData p) =
      rPresent RVal.loc p.location_type := by
  rw [reservationUpdateData, dlookup_append, dlookup_append, dlookup_append,
    dlookup_append, dlookup_append, dlookup_append,
    dlookup_rEntry_self,
    dlookup_rEntry_ne "location_type" "session_date" (by decide),
    dlookup_rEntry_ne "location_type" "session_time" (by decide),
    dlookup_rEntry_ne "location_type" "location_id" (by decide),
    dlookup_rEntry_ne "location_type" "status" (by decide),
    dlookup_rEntry_ne "location_type" "price" (by decide),
    dlookup_rEntry_ne "location_type" "payment_status" (by decide)]
  cases hp : rPresent RVal.loc p.location_type <;> rfl

theorem dlookup_resData_locId (p : CoachingReservationUpdate) :
    dlookup "location_id" (reservationUpdateData p) =
      rPresent RVal.locId p.location_id := by
  rw [reservationUpdateData, dlookup_append, dlookup_append, dlookup_append,
    dlookup_append, dlookup_append, dlookup_append,
    dlookup_rEntry_self,
    dlookup_rEntry_ne "location_id" "session_date" (by decide),
    dlookup_rEntry_ne "location_id" "session_time" (by decide),
    dlookup_rEntry_ne "location_id" "location_type" (by decide),
    dlookup_rEntry_ne "location_id" "status" (by decide),
    dlookup_rEntry_ne "location_id" "price" (by decide),
    dlookup_rEntry_ne "location_id" "payment_status" (by decide)]
  cases hp : rPresent RVal.locId p.location_id <;> rfl

theorem dlookup_resData_status (p : CoachingReservationUpdate) :
    dlookup "status" (reservationUpdateData p) =
      rPresent RVal.stat p.status := by
  rw [reservationUpdateData, dlookup_append, dlookup_append, dlookup_append,
    dlookup_append, dlookup_append, dlookup_append,
    dlookup_rEntry_self,
    dlookup_rEntry_ne "status" "session_date" (by decide),
    dlookup_rEntry_ne "status" "session_time" (by decide),
    dlookup_rEntry_ne "status" "location_type" (by decide),
    dlookup_rEntry_ne "status" "location_id" (by decide),
    dlookup_rEntry_ne "status" "price" (by decide),
    dlookup_rEntry_ne "status" "payment_status" (by decide)]
  cases hp : rPresent RVal.stat p.status <;> rfl

theorem dlookup_resData_price (p : CoachingReservationUpdate) :
    dlookup "price" (reservationUpdateData p) =
      rPresent RVal.price p.price := by
  rw [reservationUpdateData, dlookup_append, dlookup_append, dlookup_append,
    dlookup_append, dlookup_append, dlookup_append,
    dlookup_rEntry_self,
    dlookup_rEntry_ne "price" "session_date" (by decide),
    dlookup_rEntry_ne "price" "session_time" (by decide),
    dlookup_rEntry_ne "price" "location_type" (by decide),
    dlookup_rEntry_ne "price" "location_id" (by decide),
    dlookup_rEntry_ne "price" "status" (by decide),
    dlookup_rEntry_ne "price" "payment_status" (by decide)]
  cases hp : rPresent RVal.price p.price <;> rfl

theorem dlookup_resData_pay (p : CoachingReservationUpdate) :
    dlookup "payment_status" (reservationUpdateData p) =
      rPresent RVal.pay p.payment_status := by
  rw [reservationUpdateData, dlookup_append, dlookup_append, dlookup_append,
    dlookup_append, dlookup_append, dlookup_append,
    dlookup_rEntry_self,
    dlookup_rEntry_ne "payment_status" "session_date" (by decide),
    dlookup_rEntry_ne "payment_status" "session_time" (by decide),
    dlookup_rEntry_ne "payment_status" "location_type" (by decide),
    dlookup_rEntry_ne "payment_status" "location_id" (by decide),
    dlookup_rEntry_ne "payment_status" "status" (by decide),
    dlookup_rEntry_ne "payment_status" "price" (by decide)]
  cases hp : rPresent RVal.pay p.payment_status <;> rfl

theorem applyReservationValues_updateData (r : CoachingReservation)
    (p : CoachingReservationUpdate) :
    applyReservationValues r (reservationUpdateData p) =
      { r with
        session_date := appliedValue p.session_date r.session_date
        session_time := appliedValue p.session_time r.session_time
        location_type := appliedValue p.location_type r.location_type
        location_id := appliedValue p.location_id r.location_id
        status := appliedValue p.status r.status
        price := appliedValue p.price r.price
        payment_status := appliedValue p.payment_status r.payment_status } := by
  rw [applyReservationValues, dlookup_resData_date, dlookup_resData_time,
    dlookup_resData_loc, dlookup_resData_locId, dlookup_resData_status,
    dlookup_resData_price, dlookup_resData_pay]
  congr 1
  · cases p.session_date with
    | none => rfl
    | some o => cases o <;> rfl
  · cases p.session_time with
    | none => rfl
    | some o => cases o <;> rfl
  · cases p.location_type with
    | none => rfl
    | some o => cases o <;> rfl
  · cases p.location_id with
    | none => rfl
    | some o => cases o <;> rfl
  · cases p.status with
    | none => rfl
    | some o => cases o <;> rfl
  · cases p.price with
    | none => rfl
    | some o => cases o <;> rfl
  · cases p.payment_status with
    | none => rfl
    | some o => cases o <;> rfl

theorem rPresent_none_of_reservationUpdateData_nil {p : CoachingReservationUpdate}
    (h : reservationUpdateData p = []) :
    rPresent RVal.date p.session_date = none ∧
    rPresent RVal.time p.session_time = none ∧
    rPresent RVal.loc p.location_type = none ∧
    rPresent RVal.locId p.location_id = none ∧
    rPresent RVal.stat p.status = none ∧
    rPresent RVal.price p.price = none ∧
    rPresent RVal.pay p.payment_status = none := by
  rw [reservationUpdateData] at h
  simp only [List.append_eq_nil] at h
  obtain ⟨⟨⟨⟨⟨⟨h1, h2⟩, h3⟩, h4⟩, h5⟩, h6⟩, h7⟩ := h
  exact ⟨rPresent_none_of_rEntry_nil h1, rPresent_none_of_rEntry_nil h2,
    rPresent_none_of_rEntry_nil h3, rPresent_none_of_rEntry_nil h4,
    rPresent_none_of_rEntry_nil h5, rPresent_none_of_rEntry_nil h6,
    rPresent_none_of_rEntry_nil h7⟩

theorem applyReservationValues_session_id (r : CoachingReservation)
    (d : List (String × RVal)) :
    (applyReservationValues r d).session_id = r.session_id := rfl

theorem update_reservation_refetch (db : List CoachingReservation) (sid : Nat)
    (p : CoachingReservationUpdate) (r : CoachingReservation)
    (hr : get_reservation db sid = some r) :
    (update_reservation db sid p).2 = some
      { r with
        session_date := appliedValue p.session_date r.session_date
        session_time := appliedValue p.session_time r.session_time
        location_type := appliedValue p.location_type r.location_type
        location_id := appliedValue p.location_id r.location_id
        status := appliedValue p.status r.status
        price := appliedValue p.price r.price
        payment_status := appliedValue p.payment_status r.payment_status } := by
  simp only [update_reservation]
  by_cases he : (reservationUpdateData p).isEmpty
  · have hnil : reservationUpdateData p = [] := by simpa [List.isEmpty_iff] using he
    obtain ⟨h1, h2, h3, h4, h5, h6, h7⟩ :=
      rPresent_none_of_reservationUpdateData_nil hnil
    rw [appliedValue_eq_old h1, appliedValue_eq_old h2, appliedValue_eq_old h3,
      appliedValue_eq_old h4, appliedValue_eq_old h5, appliedValue_eq_old h6,
      appliedValue_eq_old h7]
    simpa [he] using hr
  · have hpred : ∀ x : CoachingReservation,
        ((if x.session_id == sid then applyReservationValues x (reservationUpdateData p)
          else x).session_id == sid) = (x.session_id == sid) := by
      intro x
      by_cases hx : x.session_id == sid <;>
        simp [hx, applyReservationValues_session_id]
    rw [get_reservation] at hr
    have hrtrue : (r.session_id == sid) = true := by
      have := List.find?_some hr
      simpa using this
    simp only [he, if_false, Bool.false_eq_true, get_reservation]
    rw [find?_map_comm db
      (fun x => if x.session_id == sid then
        applyReservationValues x (reservationUpdateData p) else x)
      (fun x => x.session_id == sid) hpred, hr]
    simp [hrtrue, applyReservationValues_updateData]
    intro h
    exact absurd (by simpa using hrtrue) h

/-- Claim C5 (amended): the CRUD-layer partial updates (video and
reservation) apply exactly the fields explicitly present with a non-null
value — fields explicitly sent as null are filtered out, everything else
keeps its previous value — and return the re-fetched entity; the
user-profile update route, however, applies every explicitly present
field including explicit nulls (which is what the counterexample forces
the claim to concede), retains absent fields, and returns the refreshed
row after commit. -/
theorem partial_update_null_policy :
    (∀ (db : VideoDB) (vid : Nat) (p : VideoUpdate) (v : Video),
      get_video db vid = some v →
        (update_video db vid p).2 = some
          { v with
            club_type := appliedField p.club_type v.club_type
            swing_form := appliedField p.swing_form v.swing_form
            swing_note := appliedField p.swing_note v.swing_note
            thumbnail_url := appliedField p.thumbnail_url v.thumbnail_url } ∧
        (update_video db vid p).2 = get_video (update_video db vid p).1 vid) ∧
    (∀ (db : List CoachingReservation) (sid : Nat) (p : CoachingReservationUpdate)
      (r : CoachingReservation),
      get_reservation db sid = some r →
        (update_reservation db sid p).2 = some
          { r with
            session_date := appliedValue p.session_date r.session_date
            session_time := appliedValue p.session_time r.session_time
            location_type := appliedValue p.location_type r.location_type
            location_id := appliedValue p.location_id r.location_id
            status := appliedValue p.status r.status
            price := appliedValue p.price r.price
            payment_status := appliedValue p.payment_status r.payment_status } ∧
        (update_reservation db sid p).2 =
          get_reservation (update_reservation db sid p).1 sid) ∧
    (∀ (db : AuthDB) (uid : Nat) (p : UserProfileUpdate) (u : User),
      db.users.find? (fun x => x.user_id == uid) = some u →
        update_user_profile db uid p =
          .ok ({ db with
                  users := db.users.map
                    (fun x => if x.user_id == uid then applyUserProfile u p else x) },
               applyUserProfile u p) ∧
        (applyUserProfile u p).bio = p.bio.getD u.bio) := by
  refine ⟨?_, ?_, ?_⟩
  · intro db vid p v hv
    exact ⟨update_video_refetch db vid p v hv, rfl⟩
  · intro db sid p r hr
    exact ⟨update_reservation_refetch db sid p r hr, rfl⟩
  · intro db uid p u hu
    exact ⟨by simp [update_user_profile, hu], rfl⟩

def updWitnessVideo : Video :=
  { video_id := 3, user_id := 1, video_url := "c.mp4",
    thumbnail_url := some "t.jpg", club_type := some "driver",
    swing_form := some "slice", swing_note := some "old note",
    is_pinned := false, is_reviewed := false, section_group_id := none,
    upload_date := 0 }

def updWitnessVideoDB : VideoDB := [updWitnessVideo]

def updWitnessVideoPayload : VideoUpdate :=
  { club_type := some (some "iron"), swing_form := some none,
    swing_note := none, thumbnail_url := none }

def updWitnessRes : CoachingReservation :=
  { session_id := 4, user_id := 1, coach_id := 2, session_date := 10,
    session_time := 11, location_type := .simulation_golf, location_id := 6,
    status := .booked, price := 100, payment_status := .pending }

def updWitnessResDB : List CoachingReservation := [updWitnessRes]

def updWitnessResPayload : CoachingReservationUpdate :=
  { session_date := none, session_time := none, location_type := none,
    location_id := none, status := some (some .completed), price := none,
    payment_status := some none }

def updWitnessUser : User :=
  { user_id := 9, usertype := "user", username := some "ann",
    email := some "a@x.com", password_hash := "bcrypt$p", gender := none,
    line_user_id := none, profile_picture_url := none, bio := some "hi",
    birthday := none, golf_score_ave := none, golf_exp := none,
    zip_code := none, state := none, address1 := none, address2 := none,
    sport_exp := none, industry := none, job_title := none,
    position := none }

def updWitnessAuthDB : AuthDB := { users := [updWitnessUser], coaches := [] }

def updWitnessProfilePayload : UserProfileUpdate :=
  { username := none, email := none, gender := none, birthday := none,
    profile_picture_url := none, bio := some none, golf_score_ave := none,
    golf_exp := none, zip_code := none, state := none, address1 := none,
    address2 := none, sport_exp := none, industry := none, job_title := none,
    position := none }

/-- Claim C5 (counterexample): the user-profile route does not filter
explicit nulls — updating a user whose bio is "hi" with a payload whose
bio field is explicitly null persists a null bio instead of retaining
"hi", refuting the universal null-filtering policy of the claim. -/
theorem update_user_profile_null_applied_counterexample :
    updWitnessUser.bio = some "hi" ∧
    updWitnessProfilePayload.bio = some none ∧
    (update_user_profile updWitnessAuthDB 9 updWitnessProfilePayload).toOption.map
      (fun res => res.2.bio) = some none :=
  ⟨rfl, rfl, rfl⟩

theorem partial_update_null_policy_witness :
    (get_video updWitnessVideoDB 3 = some updWitnessVideo ∧
      (update_video updWitnessVideoDB 3 updWitnessVideoPayload).2 = some
        { updWitnessVideo with
          club_type := appliedField updWitnessVideoPayload.club_type
            updWitnessVideo.club_type
          swing_form := appliedField updWitnessVideoPayload.swing_form
            updWitnessVideo.swing_form
          swing_note := appliedField updWitnessVideoPayload.swing_note
            updWitnessVideo.swing_note
          thumbnail_url := appliedField updWitnessVideoPayload.thumbnail_url
            updWitnessVideo.thumbnail_url }) ∧
    (get_reservation updWitnessResDB 4 = some updWitnessRes) ∧
    (updWitnessAuthDB.users.find? (fun x => x.user_id == 9) =
      some updWitnessUser) ∧
    (update_reservation updWitnessResDB 4 updWitnessResPayload).2 = some
      { updWitnessRes with
        session_date := appliedValue updWitnessResPayload.session_date
          updWitnessRes.session_date
        session_time := appliedValue updWitnessResPayload.session_time
          updWitnessRes.session_time
        location_type := appliedValue updWitnessResPayload.location_type
          updWitnessRes.location_type
        location_id := appliedValue updWitnessResPayload.location_id
          updWitnessRes.location_id
        status := appliedValue updWitnessResPayload.status
          updWitnessRes.status
        price := appliedValue updWitnessResPayload.price
          updWitnessRes.price
        payment_status := appliedValue updWitnessResPayload.payment_status
          updWitnessRes.payment_status } ∧
    (applyUserProfile updWitnessUser updWitnessProfilePayload).bio =
      updWitnessProfilePayload.bio.getD updWitnessUser.bio :=
  ⟨⟨by rfl,
    (partial_update_null_policy.1 updWitnessVideoDB 3 updWitnessVideoPayload
      updWitnessVideo (by rfl)).1⟩,
   by rfl, by rfl,
   (partial_update_null_policy.2.1 updWitnessResDB 4 updWitnessResPayload
      updWitnessRes (by rfl)).1,
   (partial_update_null_policy.2.2 updWitnessAuthDB 9 updWitnessProfilePayload
      updWitnessUser (by rfl)).2⟩

/-! ### Claim C7 — transcription without a credential -/

/-- Claim C7 (counterexample): even with no credential configured, a
request whose audio file is under 1000 bytes returns success = false with
a no-audio message — reached before the credential check — so not every
request yields the fixed placeholder with a success status. -/
theorem transcribe_audio_small_file_counterexample :
    transcribe_audio_route false 0 (some "audio/wav") 500 "general" none
        (.error "e") (.error "e") =
      .ok { success := false, transcription := tooSmallMessage,
            type := "general", audio_url := none, audio_filename := none,
            audio_duration := none } ∧
    tooSmallMessage ≠ routeDummyTranscription :=
  ⟨rfl, by decide⟩

/-- Claim C7 (amended): with no transcription credential configured,
every transcription request that passes input validation — an audio/*
content type and a file of at least 1000 bytes — returns the fixed
placeholder text with success = true and never raises, whatever the
Whisper and storage oracles would do; likewise the service-level
transcribe_audio in dummy mode returns its fixed placeholder and never an
error.  Smaller uploads get a no-audio message with success = false, and
non-audio uploads a 400, both before the credential check. -/
theorem transcription_no_credential_placeholder (now : Nat) (ct : String)
    (size : Nat) (ty : String) (pc : Option String)
    (whisper upload : Except String String)
    (hct : strStartsWith ct "audio/" = true) (hsize : 1000 ≤ size) :
    transcribe_audio_route false now (some ct) size ty pc whisper upload =
      .ok { success := true, transcription := routeDummyTranscription,
            type := ty, audio_url := none, audio_filename := none,
            audio_duration := none } ∧
    service_transcribe_audio true whisper = .ok serviceDummyTranscription := by
  constructor
  · have hns : ¬ size < 1000 := Nat.not_lt.mpr hsize
    simp [transcribe_audio_route, hct, hns]
  · rfl

theorem transcription_no_credential_placeholder_witness :
    (strStartsWith "audio/wav" "audio/" = true) ∧ (1000 ≤ 1024) ∧
    transcribe_audio_route false 0 (some "audio/wav") 1024 "general" none
        (.error "e") (.error "e") =
      .ok { success := true, transcription := routeDummyTranscription,
            type := "general", audio_url := none, audio_filename := none,
            audio_duration := none } :=
  ⟨by decide, by decide,
    (transcription_no_credential_placeholder 0 "audio/wav" 1024 "general" none
      (.error "e") (.error "e") (by decide) (by decide)).1⟩

/-! ### Claim C8 — summarization fallback without a credential -/

/-- Claim C8 (counterexample): the no-credential fallback appends an
ellipsis after slicing, so for an over-long input the result is not the
input truncated to the max length (it is three characters longer), which
refutes the description of the fallback in the claim. -/
theorem summarize_fallback_counterexample :
    summarize_coach_comment false (fun _ => .error "no api") "abcde" 3 =
      "abc..." ∧
    "abcde".take 3 = "abc" ∧
    ("abc..." : String) ≠ "abc" ∧
    ¬ (("abc..." : String).length ≤ 3) :=
  ⟨rfl, rfl, by decide, by decide⟩

/-- Claim C8 (amended): with no credential configured, every
summarization call (coach comment, overall feedback, training menu)
returns, without consulting the external-service oracle, the input
sliced to the max length of the operation with an ellipsis suffix appended
when the input exceeds that length; inputs not exceeding the max length
are returned unchanged. -/
theorem summarize_no_credential_fallback (api : String → Except String String)
    (s : String) (m : Nat) :
    summarize_coach_comment false api s m =
      (if m < s.length then s.take m ++ "..." else s) ∧
    summarize_overall_feedback false api s m =
      (if m < s.length then s.take m ++ "..." else s) ∧
    summarize_training_menu false api s m =
      (if m < s.length then s.take m ++ "..." else s) ∧
    (s.length ≤ m →
      summarize_coach_comment false api s m = s ∧
      summarize_overall_feedback false api s m = s ∧
      summarize_training_menu false api s m = s) ∧
    (∀ api2 : String → Except String String,
      summarize_coach_comment false api2 s m =
        summarize_coach_comment false api s m ∧
      summarize_overall_feedback false api2 s m =
        summarize_overall_feedback false api s m ∧
      summarize_training_menu false api2 s m =
        summarize_training_menu false api s m) := by
  refine ⟨rfl, rfl, rfl, ?_, fun api2 => ⟨rfl, rfl, rfl⟩⟩
  intro h
  have hn : ¬ m < s.length := Nat.not_lt.mpr h
  exact ⟨by simp [summarize_coach_comment, hn],
    by simp [summarize_overall_feedback, hn],
    by simp [summarize_training_menu, hn]⟩

theorem summarize_no_credential_fallback_witness :
    (("ab" : String).length ≤ 3) ∧
    summarize_coach_comment false (fun _ => Except.ok "x") "ab" 3 = "ab" :=
  ⟨by decide,
    ((summarize_no_credential_fallback (fun _ => Except.ok "x") "ab" 3).2.2.2.1
      (by decide)).1⟩

/-! ### Claim C9 — webhook acknowledgement vs. per-event failures -/

def lineCexEnv : LineEnv :=
  { ensureGuest := fun _ => .error "db down",
    getContent := fun _ => .ok "bytes",
    uploadImage := fun _ _ => .ok "url",
    reply := fun _ _ => .ok () }

def lineCexEvent : LineEvent :=
  { etype := some "message", userId := some "U1", replyToken := some "r",
    message := some { mtype := some "text", id := "m1", text := "hello" } }

/-- Claim C9 (counterexample): a failure while handling an individual
event can change the transport-level response — guest-user provisioning
is outside the per-message try blocks, so its exception escapes the loop
and the delivery does not return the fixed acknowledgement. -/
theorem webhook_guest_failure_counterexample :
    webhook lineCexEnv true [lineCexEvent] = .error "db down" ∧
    (Except.error "db down" : Except String WebhookAck) ≠
      .ok { success := true } :=
  ⟨rfl, by simp⟩

theorem handle_message_ok (env : LineEnv)
    (hreply : ∀ tok texts, env.reply tok texts = .ok ())
    (ev : LineEvent) : handle_message env ev = .ok () := by
  rw [handle_message]
  set msg := ev.message.getD { mtype := none, id := "", text := "" } with hmsg
  by_cases h1 : msg.mtype = some "image"
  · simp only [h1, if_true]
    cases hc : env.getContent msg.id with
    | error e => simp [hreply]
    | ok blob =>
      cases hup : env.uploadImage blob ("line_img_" ++ msg.id ++ ".jpg") with
      | error e => simp [hreply, hup]
      | ok url => simp [hreply, hup]
  · by_cases h2 : msg.mtype = some "video"
    · simp only [h1, h2, if_false, if_true]
      cases hc : env.getContent msg.id with
      | error e => simp [hreply]
      | ok blob => simp [hreply]
    · by_cases h3 : msg.mtype = some "audio"
      · simp only [h1, h2, h3, if_false, if_true]
        cases hc : env.getContent msg.id with
        | error e => simp [hreply]
        | ok blob => simp [hreply]
      · by_cases h4 : msg.mtype = some "text" <;>
          simp [h1, h2, h3, h4, hreply]

theorem handle_event_ok (env : LineEnv)
    (hguest : ∀ uid, env.ensureGuest uid = .ok ())
    (hreply : ∀ tok texts, env.reply tok texts = .ok ())
    (ev : LineEvent) : handle_event env ev = .ok () := by
  rw [handle_event]
  cases hub : ev.userId with
  | none =>
    by_cases het : ev.etype = some "message"
    · simp [het, handle_message_ok env hreply ev]
    · cases ev.replyToken <;> simp [het, hreply]
  | some uid =>
    simp only [hguest]
    by_cases het : ev.etype = some "message"
    · simp [het, handle_message_ok env hreply ev]
    · cases ev.replyToken <;> simp [het, hreply]

/-- Claim C9 (amended): for every delivery whose signature verifies, the
HTTP response is the fixed acknowledgement regardless of the outcomes of
the media try-blocks (content fetch and storage) — those failures are
swallowed — provided the effects outside any try block succeed: guest-user
provisioning and reply sending, whose exceptions do escape the loop and
change the transport-level response (as the counterexample shows). -/
theorem webhook_fixed_ack (env : LineEnv) (events : List LineEvent)
    (hguest : ∀ uid, env.ensureGuest uid = .ok ())
    (hreply : ∀ tok texts, env.reply tok texts = .ok ()) :
    webhook env true events = .ok { success := true } := by
  rw [webhook]
  have hrun : run_events env events = .ok () := by
    induction events with
    | nil => rfl
    | cons ev evs ih =>
      rw [run_events, handle_event_ok env hguest hreply ev, ih]
  rw [hrun]
  rfl

def lineWitnessEnv : LineEnv :=
  { ensureGuest := fun _ => .ok (),
    getContent := fun _ => .error "content fetch failed",
    uploadImage := fun _ _ => .error "upload failed",
    reply := fun _ _ => .ok () }

def lineWitnessEvents : List LineEvent :=
  [{ etype := some "message", userId := some "U1", replyToken := some "r",
     message := some { mtype := some "image", id := "m1", text := "" } },
   { etype := some "follow", userId := some "U2", replyToken := some "r2",
     message := none }]

theorem webhook_fixed_ack_witness :
    (∀ uid, lineWitnessEnv.ensureGuest uid = .ok ()) ∧
    (∀ tok texts, lineWitnessEnv.reply tok texts = .ok ()) ∧
    webhook lineWitnessEnv true lineWitnessEvents = .ok { success := true } :=
  ⟨fun _ => rfl, fun _ _ => rfl,
    webhook_fixed_ack lineWitnessEnv lineWitnessEvents (fun _ => rfl)
      (fun _ _ => rfl)⟩

end BBC
